import Mathlib

/-!
Verification of the apex-motors session-authority subsystem.

This file shallowly embeds the Go source of the repository:
`config.go` (constants), `jwt.go` (token issuance and validation),
`auth.go` (login / refresh / logout handlers), `middleware.go`
(auth guard, rate limiter) and `main.go` (route wiring for logout).

Modelling decisions, justified against the source:

* Time is modelled in whole seconds (`Nat` for token clocks, `Int` for
  rate-limiter clocks).  `golang-jwt/v5` serialises `iat`/`exp` through
  `jwt.NewNumericDate` at `jwt.TimePrecision = time.Second`, so two
  tokens whose claims agree at second granularity serialise to
  byte-identical strings (HS256 and Go's `json.Marshal` of a struct are
  deterministic).  Consequently a JWT string is faithfully represented
  by its parsed content: algorithm, claims, and MAC.
* The HMAC signature is modelled symbolically: `Mac key alg claims`
  stands for the MAC bytes computed by HMAC-SHA over the encoded
  header/payload with `key`.  HMAC is deterministic, and distinct
  (key, alg, claims) triples give distinct MACs (collision-freeness of
  the symbolic model); no theorem below relies on more than that.
* Go strings that may contain a JWT (the Authorization header, the
  refresh-token ledger keys) are modelled as `List Atom` where an atom
  is either an ordinary character or a whole serialised JWT.  This is
  sound for the string operations the source performs on them
  (emptiness test, `strings.TrimPrefix` with the 7-character bearer
  marker, map-key equality): base64url-encoded JWT segments never
  contain a space, so a JWT string never starts with the bearer marker,
  and JWT serialisation is injective, so string equality of serialised
  tokens coincides with equality of the parsed tokens.
* Go maps are modelled as association lists with overwrite-on-insert,
  no-op delete of absent keys, and membership lookup, matching the
  `map[string]string` / `map[string][]time.Time` semantics used.
* `SignedString` can in principle return an error (treated by the
  handlers as HTTP 500); signing is otherwise deterministic and total,
  so the backend outcome is threaded through as an explicit boolean
  oracle `signFail`.
-/

set_option maxRecDepth 4000

namespace ApexMotors

/-! ## config.go -/

def jwtSecret : String := "apex-motors-secret-change-in-production"

/-- Access-token lifetime in seconds (`accessTokenTTL = 15 * time.Minute`). -/
def accessTokenTTL : Nat := 15 * 60

/-- Refresh-token lifetime in seconds (`refreshTokenTTL = 7 * 24 * time.Hour`). -/
def refreshTokenTTL : Nat := 7 * 24 * 60 * 60

/-- Rate-limit window in seconds (`rateLimitWindow = time.Minute`). -/
def rateLimitWindow : Nat := 60

/-- Max requests per IP per window (`rateLimitMax = 10`). -/
def rateLimitMax : Nat := 10

def demoUsername : String := "seller"

def demoPassword : String := "carmarket123"

/-! ## Data model (models.go / jwt.go) -/

/-- The claims embedded in every JWT: `Claims` of models.go with the
`jwt.RegisteredClaims` fields the code sets (`IssuedAt`, `ExpiresAt`),
at second precision. -/
structure Claims where
  username : String
  tokenType : String
  issuedAt : Nat
  expiresAt : Nat
deriving DecidableEq, Repr

/-- Declared signing algorithm of a JWT header.  `hs256` is what
`generateTokenPair` uses; the other constructors model the headers an
attacker may declare. -/
inductive Alg
  | hs256
  | hs384
  | hs512
  | rs256
  | algNone
deriving DecidableEq, Repr

/-- The keyfunc in `validateJWT` accepts exactly the HMAC family:
`t.Method.(*jwt.SigningMethodHMAC)` succeeds for HS256/HS384/HS512. -/
def Alg.isHMAC : Alg → Bool
  | .hs256 => true
  | .hs384 => true
  | .hs512 => true
  | .rs256 => false
  | .algNone => false

/-- Symbolic HMAC value over the encoded header and payload: determined
by (and only by) the key, the declared algorithm and the claims. -/
structure Mac where
  key : String
  alg : Alg
  claims : Claims
deriving DecidableEq, Repr

/-- A parsed JWT: declared algorithm, claims payload, and signature. -/
structure Token where
  alg : Alg
  claims : Claims
  mac : Mac
deriving DecidableEq, Repr

/-- Atoms of modelled Go strings: a plain character or a serialised JWT
(base64url JWT segments contain no space, so a JWT never overlaps the
`Bearer ` marker character-wise). -/
inductive Atom
  | ch (c : Char)
  | jwtTok (t : Token)
deriving DecidableEq, Repr

/-- Model of a Go string that may carry a JWT. -/
abbrev GoStr := List Atom

/-- Embed an ordinary string literal. -/
def strLit (s : String) : GoStr := s.data.map Atom.ch

/-- The serialised form of a JWT. -/
def tokStr (t : Token) : GoStr := [Atom.jwtTok t]

/-! ## Go map semantics (store.go: `refreshTokens map[string]string`) -/

/-- The refresh-token ledger: token string to owning username. -/
abbrev Ledger := List (GoStr × String)

/-- `refreshTokens[k] = v`: overwrite on duplicate key. -/
def mapInsert (m : Ledger) (k : GoStr) (v : String) : Ledger :=
  (k, v) :: m.filter (fun p => !(p.1 == k))

/-- `delete(refreshTokens, k)`: removing an absent key is a no-op. -/
def mapDelete (m : Ledger) (k : GoStr) : Ledger :=
  m.filter (fun p => !(p.1 == k))

/-- `_, exists := refreshTokens[k]`. -/
def mapMem (m : Ledger) (k : GoStr) : Bool :=
  m.any (fun p => p.1 == k)

/-! ## jwt.go -/

/-- `SignedString`: sign the claims under `key` with algorithm `a`.
Deterministic, so re-signing equal claims yields the equal token. -/
def signedString (key : String) (a : Alg) (c : Claims) : Token :=
  ⟨a, c, ⟨key, a, c⟩⟩

/-- The access token `generateTokenPair` creates at time `now`. -/
def accessTokenOf (username : String) (now : Nat) : Token :=
  signedString jwtSecret .hs256 ⟨username, "access", now, now + accessTokenTTL⟩

/-- The refresh token `generateTokenPair` creates at time `now`. -/
def refreshTokenOf (username : String) (now : Nat) : Token :=
  signedString jwtSecret .hs256 ⟨username, "refresh", now, now + refreshTokenTTL⟩

/-- `generateTokenPair` (jwt.go): sign an access and a refresh token for
`username` and record the refresh token in the server-side ledger.
`signFail = true` models the signing backend returning an error, in
which case nothing is recorded and the caller sees the error. -/
def generateTokenPair (username : String) (now : Nat) (signFail : Bool)
    (led : Ledger) : Option (Token × Token) × Ledger :=
  if signFail then (none, led)
  else
    let acc := accessTokenOf username now
    let ref := refreshTokenOf username now
    (some (acc, ref), mapInsert led (tokStr ref) username)

/-- `jwt.ParseWithClaims`' decoding step: a well-formed serialised JWT
parses back to its content, anything else fails to parse. -/
def parseJWT : GoStr → Option Token
  | [Atom.jwtTok t] => some t
  | _ => none

/-- `validateJWT` (jwt.go): parse, reject non-HMAC declared algorithms
(the keyfunc), verify the MAC against `jwtSecret`, reject expired
tokens (`exp` is invalid once `expiresAt ≤ now`), then enforce the
token-type claim.  All failures collapse to one error
(`jwt.ErrTokenInvalidClaims`), modelled as `none`. -/
def validateJWT (s : GoStr) (expectedType : String) (now : Nat) :
    Option Claims :=
  match parseJWT s with
  | none => none
  | some t =>
    if t.alg.isHMAC then
      if t.mac = ⟨jwtSecret, t.alg, t.claims⟩ then
        if now < t.claims.expiresAt then
          if t.claims.tokenType = expectedType then some t.claims else none
        else none
      else none
    else none

/-! ## auth.go -/

/-- Outcome of `loginHandler`. -/
inductive LoginResult
  | badRequest
  | unauthorized
  | signingFailure
  | ok (access refresh : Token) (expiresIn : Nat)
deriving DecidableEq, Repr

/-- `loginHandler` (auth.go): decode the body (`none` = malformed,
HTTP 400), check the demo credentials (401 on mismatch), then issue a
pair (500 on signing failure, 200 with `expires_in = 900` otherwise). -/
def loginHandler (body : Option (String × String)) (now : Nat)
    (signFail : Bool) (led : Ledger) : LoginResult × Ledger :=
  match body with
  | none => (.badRequest, led)
  | some (u, p) =>
    if u ≠ demoUsername ∨ p ≠ demoPassword then (.unauthorized, led)
    else
      match generateTokenPair u now signFail led with
      | (none, led1) => (.signingFailure, led1)
      | (some (acc, ref), led1) => (.ok acc ref accessTokenTTL, led1)

/-- Outcome of `refreshHandler`.  `invalidToken` and `revoked` are both
HTTP 401 but carry the distinct messages of the source. -/
inductive RotateResult
  | badRequest
  | invalidToken
  | revoked
  | signingFailure
  | ok (access refresh : Token) (expiresIn : Nat)
deriving DecidableEq, Repr

def RotateResult.isOk : RotateResult → Bool
  | .ok _ _ _ => true
  | _ => false

/-- `refreshHandler` (auth.go): decode the body, validate the JWT with
expected type `refresh`, check ledger membership (401 `revoked` if
absent), delete the used token, then issue a new pair (500 on signing
failure).  This sequential model composes the handler's steps in source
order; the claim about concurrent interleavings is treated separately
below. -/
def refreshHandler (body : Option GoStr) (now : Nat) (signFail : Bool)
    (led : Ledger) : RotateResult × Ledger :=
  match body with
  | none => (.badRequest, led)
  | some tokenStr =>
    match validateJWT tokenStr "refresh" now with
    | none => (.invalidToken, led)
    | some claims =>
      if mapMem led tokenStr then
        let led1 := mapDelete led tokenStr
        match generateTokenPair claims.username now signFail led1 with
        | (none, led2) => (.signingFailure, led2)
        | (some (acc, ref), led2) => (.ok acc ref accessTokenTTL, led2)
      else (.revoked, led)

/-- `logoutHandler` (auth.go): decoding is best-effort (a malformed or
missing body leaves the zero value, the empty string), a non-empty
token is deleted from the ledger, and the response is always 200. -/
def logoutHandler (body : Option GoStr) (led : Ledger) : Nat × Ledger :=
  let tok := body.getD []
  if tok = [] then (200, led) else (200, mapDelete led tok)

/-! ## middleware.go -/

/-- `strings.TrimPrefix s p`: drop `p` when it is a prefix of `s`,
otherwise return `s` unchanged. -/
def trimPfx (s p : GoStr) : GoStr :=
  if p.isPrefixOf s then s.drop p.length else s

/-- The literal `Bearer ` marker. -/
def bearerLit : GoStr := strLit "Bearer "

/-- Outcome of `AuthMiddleware`: reject with 401 or proceed to the next
stage with the claims attached to the request context. -/
inductive AuthResult
  | unauthorized (msg : String)
  | proceed (c : Claims)
deriving DecidableEq, Repr

def AuthResult.isReject : AuthResult → Bool
  | .unauthorized _ => true
  | .proceed _ => false

/-- `AuthMiddleware` (middleware.go): 401 when the header is empty;
otherwise trim the bearer marker, validate with expected type
`access`, 401 on failure, else attach the claims and continue. -/
def authMiddleware (authHeader : GoStr) (now : Nat) : AuthResult :=
  if authHeader = [] then .unauthorized "authorization header required"
  else
    match validateJWT (trimPfx authHeader bearerLit) "access" now with
    | none => .unauthorized "invalid or expired access token"
    | some c => .proceed c

/-- The `/api/logout` route as wired in main.go:
`Chain(logoutHandler, AuthMiddleware, MethodMiddleware("POST"))`, with
the first middleware outermost.  `MethodMiddleware` also passes
`OPTIONS` through for CORS preflight. -/
def logoutRoute (method : String) (authHeader : GoStr) (body : Option GoStr)
    (now : Nat) (led : Ledger) : Nat × Ledger :=
  match authMiddleware authHeader now with
  | .unauthorized _ => (401, led)
  | .proceed _ =>
    if method ≠ "POST" ∧ method ≠ "OPTIONS" then (405, led)
    else logoutHandler body led

/-! ## Rate limiter (middleware.go / store.go) -/

/-- `rateLimiter map[string][]time.Time`, IP to timestamp list.
Timestamps are seconds as integers so that `now - window` never
truncates. -/
abbrev RateState := List (String × List Int)

/-- `rateLimiter[ip]`: a missing key reads as the empty slice. -/
def lookupTimes (rl : RateState) (ip : String) : List Int :=
  match rl.lookup ip with
  | some l => l
  | none => []

/-- `rateLimiter[ip] = l`. -/
def rlInsert (rl : RateState) (ip : String) (l : List Int) : RateState :=
  (ip, l) :: rl.filter (fun p => !(p.1 == ip))

/-- `isRateLimited` (middleware.go): keep only timestamps strictly
inside the trailing window (`t.After(windowStart)`), append `now`,
store the result, and report limited when the count exceeds
`rateLimitMax`. -/
def isRateLimited (rl : RateState) (ip : String) (now : Int) :
    Bool × RateState :=
  let windowStart := now - (rateLimitWindow : Int)
  let fresh :=
    ((lookupTimes rl ip).filter (fun t => decide (windowStart < t))) ++ [now]
  (decide (rateLimitMax < fresh.length), rlInsert rl ip fresh)

/-- `RateLimitMiddleware`: 429 when `isRateLimited`, otherwise pass
through (`none`). -/
def rateLimitGate (rl : RateState) (ip : String) (now : Int) :
    Option Nat × RateState :=
  let r := isRateLimited rl ip now
  (if r.1 then some 429 else none, r.2)

/-- Run the rate-limit gate over a sequence of request times from one
client, collecting each response (`none` = allowed, `some 429`). -/
def runGate (rl : RateState) (ip : String) : List Int →
    List (Option Nat) × RateState
  | [] => ([], rl)
  | t :: ts =>
    let s1 := rateLimitGate rl ip t
    let rest := runGate s1.2 ip ts
    (s1.1 :: rest.1, rest.2)

/-! ## Interleaving model of concurrent rotations (auth.go lines 69-88)

Each inbound request runs on its own goroutine.  Inside
`refreshHandler`, after the (pure, thread-local) JWT validation, the
shared ledger is touched in three separately locked regions:

1. `refreshTokensMu.RLock(); _, exists := refreshTokens[k]; RUnlock()`
2. `refreshTokensMu.Lock(); delete(refreshTokens, k); Unlock()`
3. inside `generateTokenPair`:
   `refreshTokensMu.Lock(); refreshTokens[new] = username; Unlock()`
   (the signing before it is pure).

Each locked region is one atomic step; between regions the lock is
released, so steps of different requests interleave freely.  A thread
whose membership check fails responds 401 and stops. -/

/-- One rotation in flight: program counter over the three atomic
regions (0 = before the check, 1 = before the delete, 2 = before the
insert, 3 = done) and whether it ended up responding 200. -/
structure RotThread where
  pc : Nat
  ok : Bool
deriving DecidableEq, Repr

/-- One atomic step of a rotation of token string `k` for user `u` at
time `now` against the shared ledger. -/
def rotStep (k : GoStr) (u : String) (now : Nat) (th : RotThread)
    (led : Ledger) : RotThread × Ledger :=
  match th.pc with
  | 0 =>
    if mapMem led k then ({ th with pc := 1 }, led)
    else ({ th with pc := 3 }, led)
  | 1 => ({ th with pc := 2 }, mapDelete led k)
  | 2 =>
    ({ th with pc := 3, ok := true },
     mapInsert led (tokStr (refreshTokenOf u now)) u)
  | _ => (th, led)

/-- Two concurrent rotations of the same token string plus the shared
ledger. -/
structure TwoRot where
  a : RotThread
  b : RotThread
  led : Ledger
deriving DecidableEq, Repr

/-- Scheduler step: `true` advances thread A, `false` thread B. -/
def twoStep (k : GoStr) (u : String) (now : Nat) (st : TwoRot)
    (pick : Bool) : TwoRot :=
  if pick then
    let r := rotStep k u now st.a st.led
    ⟨r.1, st.b, r.2⟩
  else
    let r := rotStep k u now st.b st.led
    ⟨st.a, r.1, r.2⟩

/-- Run a schedule of interleaved steps. -/
def runTwo (k : GoStr) (u : String) (now : Nat) (sched : List Bool)
    (st : TwoRot) : TwoRot :=
  sched.foldl (twoStep k u now) st

/-! ## Helper lemmas -/

/-- Validation rejects a parsed token whose type claim differs from the
expected type, whatever the other checks say. -/
theorem validateJWT_wrong_type (t : Token) (expected : String) (now : Nat)
    (h : t.claims.tokenType ≠ expected) :
    validateJWT (tokStr t) expected now = none := by
  simp [validateJWT, parseJWT, tokStr, h]

/-- Trimming a marker from a string it heads removes exactly it. -/
theorem trimPfx_append (p s : GoStr) : trimPfx (p ++ s) p = s := by
  simp [trimPfx, List.isPrefixOf_iff_prefix, List.prefix_append,
    List.drop_left]

/-- Trimming leaves a string alone when the marker does not head it. -/
theorem trimPfx_of_not_prefix (s p : GoStr) (h : ¬ p.isPrefixOf s) :
    trimPfx s p = s := by
  simp [trimPfx, h]

/-- A serialised JWT never starts with the bearer marker (base64url
segments contain no space character). -/
theorem bearer_not_prefix_tok (t : Token) :
    ¬ bearerLit.isPrefixOf (tokStr t) := by
  intro h
  have hle := (List.isPrefixOf_iff_prefix.mp h).length_le
  have h7 : bearerLit.length = 7 := by decide
  simp [tokStr] at hle
  omega

/-- Go's `delete` is idempotent on the ledger. -/
theorem mapDelete_idem (led : Ledger) (k : GoStr) :
    mapDelete (mapDelete led k) k = mapDelete led k := by
  simp [mapDelete, List.filter_filter]

/-- Reading back the timestamp slice just stored for a client. -/
theorem lookupTimes_rlInsert (rl : RateState) (ip : String) (l : List Int) :
    lookupTimes (rlInsert rl ip l) ip = l := by
  simp [lookupTimes, rlInsert, List.lookup]

/-- An absent client reads as the empty slice. -/
theorem lookupTimes_nil (ip : String) : lookupTimes [] ip = [] := rfl

/-- One rate-limit check when nothing the client has stored is stale:
nothing is pruned, the current time is appended, and the verdict
compares the grown count with the maximum. -/
theorem gate_step (rl : RateState) (ip : String) (now : Int)
    (h : ∀ x ∈ lookupTimes rl ip, now - (rateLimitWindow : Int) < x) :
    rateLimitGate rl ip now
      = (if rateLimitMax < (lookupTimes rl ip).length + 1 then some 429
          else none,
         rlInsert rl ip (lookupTimes rl ip ++ [now])) := by
  have hf : (lookupTimes rl ip).filter
      (fun t => decide (now - (rateLimitWindow : Int) < t))
      = lookupTimes rl ip :=
    List.filter_eq_self.mpr fun a ha => decide_eq_true (h a ha)
  simp [rateLimitGate, isRateLimited, hf]

/-- Running checks that all fall inside one window-length interval:
no timestamp is ever pruned, so the i-th check sees the count grown by
i + 1 over what was stored, and everything ends up stored. -/
theorem runGate_within (ip : String) (lo : Int) :
    ∀ (ts : List Int) (rl : RateState),
      (∀ x ∈ lookupTimes rl ip, lo ≤ x ∧ x < lo + (rateLimitWindow : Int)) →
      (∀ x ∈ ts, lo ≤ x ∧ x < lo + (rateLimitWindow : Int)) →
      (runGate rl ip ts).1
          = (List.range ts.length).map
              (fun i => if rateLimitMax < (lookupTimes rl ip).length + i + 1
                then some 429 else none)
        ∧ lookupTimes (runGate rl ip ts).2 ip = lookupTimes rl ip ++ ts := by
  intro ts
  induction ts with
  | nil => intro rl hpre hts; simp [runGate]
  | cons t ts ih =>
    intro rl hpre hts
    have hbound : ∀ x ∈ lookupTimes rl ip, t - (rateLimitWindow : Int) < x := by
      intro x hx
      have h1 := hpre x hx
      have h2 := (hts t (by simp)).2
      omega
    have hstep := gate_step rl ip t hbound
    have hlk : lookupTimes (rlInsert rl ip (lookupTimes rl ip ++ [t])) ip
        = lookupTimes rl ip ++ [t] := lookupTimes_rlInsert rl ip _
    have hpre' : ∀ x ∈ lookupTimes (rlInsert rl ip (lookupTimes rl ip ++ [t])) ip,
        lo ≤ x ∧ x < lo + (rateLimitWindow : Int) := by
      rw [hlk]
      intro x hx
      rcases List.mem_append.mp hx with hx1 | hx1
      · exact hpre x hx1
      · have hxt : x = t := by simpa using hx1
        rw [hxt]
        exact hts t (by simp)
    have hts' : ∀ x ∈ ts, lo ≤ x ∧ x < lo + (rateLimitWindow : Int) :=
      fun x hx => hts x (by simp [hx])
    obtain ⟨ihflags, ihstate⟩ := ih _ hpre' hts'
    constructor
    · show (runGate rl ip (t :: ts)).1 = _
      simp only [runGate]
      rw [hstep]
      simp only [List.length_cons, List.range_succ_eq_map, List.map_cons,
        List.map_map]
      rw [ihflags, hlk]
      simp only [List.length_append, List.length_singleton, Nat.add_zero]
      congr 1
      refine List.map_congr_left fun i hi => ?_
      simp only [Function.comp]
      exact if_congr (by omega) rfl rfl
    · show lookupTimes (runGate rl ip (t :: ts)).2 ip = _
      simp only [runGate]
      rw [hstep]
      simp only
      rw [ihstate, hlk]
      simp

/-! ## Claim theorems -/

/-- The refresh token issued to `seller` by a login at second 100. -/
def replayTok : GoStr := tokStr (refreshTokenOf "seller" 100)

/-- The first rotation of `replayTok`, run at second 100 on the ledger
produced by the login at second 100 that issued it. -/
def replayFirst : RotateResult × Ledger :=
  refreshHandler (some replayTok) 100 false
    (loginHandler (some ("seller", "carmarket123")) 100 false []).2

/-- C1.  The claim asserts that after a first successful `Rotate(t)` a
second `Rotate(t)` always fails with `Revoked`, and that only issuance
of a *distinct* token string ever inserts into the ledger.  The code
violates this: token serialisation is deterministic at second
precision, so when the rotation happens in the same second as the
original issuance, `generateTokenPair` re-creates the byte-identical
refresh-token string and re-inserts it.  Concretely: login at second
100 issues refresh token `t`; `Rotate(t)` at second 100 succeeds and
re-issues exactly `t`; a second `Rotate(t)` then also succeeds (200)
instead of failing with `Revoked`. -/
theorem rotate_replay_same_second :
    replayFirst.1.isOk = true ∧
    (refreshHandler (some replayTok) 100 false replayFirst.2).1.isOk = true := by
  decide

/-- The refresh token two clients try to rotate concurrently. -/
def raceTok : GoStr := tokStr (refreshTokenOf "seller" 0)

/-- The final state of two concurrent rotations of `raceTok` at second
50 under the schedule A-check, B-check, A-delete, A-issue, B-delete,
B-issue, starting from a ledger containing `raceTok`. -/
def raceFinal : TwoRot :=
  runTwo raceTok "seller" 50 [true, false, true, true, false, false]
    ⟨⟨0, false⟩, ⟨0, false⟩, [(raceTok, "seller")]⟩

/-- C2.  The claim asserts the membership check, the delete and the
issuance inside `Rotate` are atomic relative to a concurrent
`Rotate` of the same token, so at most one of two concurrent
`Rotate(t)` calls succeeds.  The code releases the read lock after the
membership check before taking the write lock for the delete, so both
threads can pass the check first: under the schedule A-check, B-check,
A-delete, A-issue, B-delete, B-issue, both rotations of the same token
respond 200. -/
theorem concurrent_double_rotation_both_succeed :
    raceFinal.a.ok = true ∧ raceFinal.b.ok = true := by
  decide

/-- The refresh token issued to `seller` by a login at second 200. -/
def deadTok : GoStr := tokStr (refreshTokenOf "seller" 200)

/-- A rotation of `deadTok` at second 200 whose issuance step fails
(signing backend error, HTTP 500), run on the ledger left by the login
at second 200 that issued `deadTok`. -/
def failedRotate : RotateResult × Ledger :=
  refreshHandler (some deadTok) 200 true
    (loginHandler (some ("seller", "carmarket123")) 200 false []).2

/-- The ledger after a second login for `seller`, still within second
200, following the failed rotation. -/
def reLoginLedger : Ledger :=
  (loginHandler (some ("seller", "carmarket123")) 200 false failedRotate.2).2

/-- C7.  The delete does happen before the issuance, and after a
rotation whose issuance fails with 500 the old token is absent from
the ledger (both shown below) — but the claim's "can never again
authorize a rotation" is violated by the same determinism as C1: a
later login for the same subject in the same second as the original
issuance re-creates the byte-identical token string, after which the
supposedly dead token rotates successfully again.  Concretely: login
at second 200 issues `t`; `Rotate(t)` at 200 with a failing signing
backend returns 500 and leaves `t` deleted; a second login at 200
re-inserts `t`; `Rotate(t)` then succeeds. -/
theorem failed_issuance_then_reuse :
    failedRotate.1 = .signingFailure ∧
    mapMem failedRotate.2 deadTok = false ∧
    (refreshHandler (some deadTok) 200 false reLoginLedger).1.isOk = true := by
  decide

/-- C4 counterexample.  The claim asserts that after every rate-limit
check the stored timestamp sequence holds at most `rateLimitMax = 10`
in-window entries.  False: rejected requests also append their
timestamps, so after 11 checks at time 0 the client's stored sequence
has 11 entries inside the trailing window. -/
theorem rateWindow_bound_counterexample :
    10 <
      ((lookupTimes
          (runGate [] "198.51.100.9" (List.replicate 11 (0 : Int))).2
          "198.51.100.9").filter
        (fun t => decide ((0 : Int) - 60 < t))).length := by
  decide

/-- C3.  Rate-limit burst semantics: for any `rateLimitMax + 1 = 11`
request times from one client that all fall inside one window-length
interval, starting from a client with no history, the first 10 requests
pass the gate and the 11th is rejected with 429; and any request made
once a full window has elapsed after every burst timestamp is allowed
again. -/
theorem rate_burst_exact (ip : String) (lo : Int) (ts : List Int)
    (hlen : ts.length = rateLimitMax + 1)
    (hin : ∀ x ∈ ts, lo ≤ x ∧ x < lo + (rateLimitWindow : Int)) :
    (runGate [] ip ts).1 = List.replicate rateLimitMax none ++ [some 429] ∧
    ∀ u : Int, (∀ x ∈ ts, x + (rateLimitWindow : Int) ≤ u) →
      (rateLimitGate (runGate [] ip ts).2 ip u).1 = none := by
  obtain ⟨hflags, hstate⟩ :=
    runGate_within ip lo ts [] (by simp [lookupTimes_nil]) hin
  constructor
  · rw [hflags, lookupTimes_nil, hlen]
    decide
  · intro u hu
    have hall : (lookupTimes (runGate [] ip ts).2 ip).filter
        (fun t => decide (u - (rateLimitWindow : Int) < t)) = [] := by
      rw [hstate, lookupTimes_nil, List.nil_append]
      refine List.filter_eq_nil_iff.mpr fun a ha => ?_
      have := hu a ha
      simp only [decide_eq_true_eq]
      omega
    simp [rateLimitGate, isRateLimited, hall, rateLimitMax]

/-- C3 witness: a burst of eleven requests at second 3 from one client
sees ten passes and one 429, and a request at second 63 passes again. -/
theorem rate_burst_exact_witness :
    (List.replicate 11 (3 : Int)).length = rateLimitMax + 1 ∧
    (∀ x ∈ List.replicate 11 (3 : Int),
      (3 : Int) ≤ x ∧ x < 3 + (rateLimitWindow : Int)) ∧
    (runGate [] "192.0.2.1" (List.replicate 11 (3 : Int))).1
      = List.replicate rateLimitMax none ++ [some 429] ∧
    (rateLimitGate (runGate [] "192.0.2.1" (List.replicate 11 (3 : Int))).2
      "192.0.2.1" 63).1 = none :=
  ⟨by decide, by decide,
   (rate_burst_exact "192.0.2.1" 3 _ (by decide) (by decide)).1,
   (rate_burst_exact "192.0.2.1" 3 _ (by decide) (by decide)).2 63 (by decide)⟩

/-- C4 amended.  What does hold after every rate-limit check: every
timestamp stored for the checked client lies strictly inside the
trailing window (stale entries really are pruned on every check); the
in-window count, however, equals the number of checks made within the
window and may exceed `rateLimitMax`, because rejected requests also
record their timestamps (see the counterexample). -/
theorem rateWindow_pruned_in_window (rl : RateState) (ip : String)
    (now t : Int)
    (h : t ∈ lookupTimes ((isRateLimited rl ip now).2) ip) :
    now - (rateLimitWindow : Int) < t := by
  have hlk : lookupTimes ((isRateLimited rl ip now).2) ip
      = ((lookupTimes rl ip).filter
          (fun x => decide (now - (rateLimitWindow : Int) < x))) ++ [now] := by
    simp [isRateLimited, lookupTimes_rlInsert]
  rw [hlk] at h
  rcases List.mem_append.mp h with h1 | h1
  · exact of_decide_eq_true (List.mem_filter.mp h1).2
  · have ht : t = now := by simpa using h1
    rw [ht]
    have hw : (0 : Int) < (rateLimitWindow : Int) := by norm_num [rateLimitWindow]
    omega

/-- C4 amended witness: after a check at second 10 by a client whose
stored slice was `[5]`, the surviving entry 5 lies inside the window. -/
theorem rateWindow_pruned_in_window_witness :
    (5 : Int) ∈ lookupTimes ((isRateLimited [("a", [(5 : Int)])] "a" 10).2) "a" ∧
    (10 : Int) - (rateLimitWindow : Int) < 5 :=
  ⟨by decide, rateWindow_pruned_in_window [("a", [(5 : Int)])] "a" 10 5 (by decide)⟩

/-- C6 counterexample.  The claim asserts verification fails for every
token whose declared algorithm differs from HS256.  False: the keyfunc
only requires the HMAC *family*, so an HS384 token carrying a MAC valid
under the server secret verifies successfully. -/
theorem alg_hs384_accepted :
    Alg.hs384 ≠ Alg.hs256 ∧
    validateJWT
        (tokStr ⟨Alg.hs384, ⟨"seller", "access", 0, 900⟩,
          ⟨jwtSecret, Alg.hs384, ⟨"seller", "access", 0, 900⟩⟩⟩)
        "access" 0
      = some ⟨"seller", "access", 0, 900⟩ := by
  decide

/-- C6 amended.  Verification fails for every token whose declared
signing algorithm lies outside the HMAC family the verifier trusts:
`none`-signed tokens and asymmetric algorithms are rejected regardless
of their payload.  (HMAC variants other than HS256 that carry a MAC
valid under the server secret are accepted — the counterexample.) -/
theorem non_hmac_rejected (t : Token) (expected : String) (now : Nat)
    (h : t.alg.isHMAC = false) :
    validateJWT (tokStr t) expected now = none := by
  simp [validateJWT, parseJWT, tokStr, h]

/-- C6 amended witness: an unsigned (`alg = none`) token with a
well-formed payload is rejected. -/
theorem non_hmac_rejected_witness :
    (Token.mk Alg.algNone ⟨"seller", "access", 0, 900⟩
      ⟨jwtSecret, Alg.algNone, ⟨"seller", "access", 0, 900⟩⟩).alg.isHMAC
      = false ∧
    validateJWT
        (tokStr ⟨Alg.algNone, ⟨"seller", "access", 0, 900⟩,
          ⟨jwtSecret, Alg.algNone, ⟨"seller", "access", 0, 900⟩⟩⟩)
        "access" 0
      = none :=
  ⟨by decide, non_hmac_rejected _ "access" 0 (by decide)⟩

/-- C5.  Role separation: validation fails for every token whose
embedded type differs from the expected type; in particular a signed,
unexpired refresh token presented (as a bearer credential) to the auth
guard is rejected with the 401 message, and an access token presented
where a refresh token is expected is likewise rejected. -/
theorem role_separation :
    (∀ (t : Token) (expected : String) (now : Nat),
        t.claims.tokenType ≠ expected →
        validateJWT (tokStr t) expected now = none) ∧
    (∀ (u : String) (iat now : Nat), now < iat + refreshTokenTTL →
        authMiddleware (bearerLit ++ tokStr (refreshTokenOf u iat)) now
          = .unauthorized "invalid or expired access token") ∧
    (∀ (u : String) (iat now : Nat),
        validateJWT (tokStr (accessTokenOf u iat)) "refresh" now = none) := by
  refine ⟨validateJWT_wrong_type, fun u iat now _ => ?_, fun u iat now => ?_⟩
  · have hne : bearerLit ++ tokStr (refreshTokenOf u iat) ≠ ([] : GoStr) := by
      simp [tokStr]
    have hv : validateJWT (tokStr (refreshTokenOf u iat)) "access" now
        = none :=
      validateJWT_wrong_type _ _ _ (by simp [refreshTokenOf, signedString])
    simp [authMiddleware, hne, trimPfx_append, hv]
  · exact validateJWT_wrong_type _ _ _ (by simp [accessTokenOf, signedString])

/-- C5 witness: the concrete refresh token for `seller` issued at
second 3 is rejected by the auth guard at second 3, and the matching
access token fails validation against expected type `refresh`. -/
theorem role_separation_witness :
    (refreshTokenOf "seller" 3).claims.tokenType ≠ "access" ∧
    validateJWT (tokStr (refreshTokenOf "seller" 3)) "access" 3 = none ∧
    (3 : Nat) < 3 + refreshTokenTTL ∧
    authMiddleware (bearerLit ++ tokStr (refreshTokenOf "seller" 3)) 3
      = .unauthorized "invalid or expired access token" ∧
    validateJWT (tokStr (accessTokenOf "seller" 3)) "refresh" 3 = none :=
  ⟨by decide, role_separation.1 _ "access" 3 (by decide), by decide,
   role_separation.2.1 "seller" 3 3 (by decide),
   role_separation.2.2 "seller" 3 3⟩

/-- C8.  Issue/verify round trip: for every subject, token-pair
generation (the body of a successful login) followed immediately by
validation of the returned access token with expected type `access`
yields the same subject in the claims, while validating that access
token with expected type `refresh` fails. -/
theorem login_roundtrip_subject (u : String) (now : Nat) (led : Ledger) :
    (generateTokenPair u now false led).1
      = some (accessTokenOf u now, refreshTokenOf u now) ∧
    validateJWT (tokStr (accessTokenOf u now)) "access" now
      = some ⟨u, "access", now, now + accessTokenTTL⟩ ∧
    validateJWT (tokStr (accessTokenOf u now)) "refresh" now = none := by
  refine ⟨rfl, ?_, validateJWT_wrong_type _ _ _ (by simp [accessTokenOf, signedString])⟩
  have hexp : now < now + accessTokenTTL := by
    simp [accessTokenTTL]
  simp [validateJWT, parseJWT, tokStr, accessTokenOf, signedString,
    Alg.isHMAC, hexp]

/-- C9.  Logout totality and idempotence: on the wired `/api/logout`
route (auth guard, then method guard, then the handler), any caller
presenting a valid access credential receives 200 for every body —
malformed or missing body, empty token, token absent from the ledger,
or token present — and repeating the same logout returns 200 again and
leaves the ledger unchanged. -/
theorem logout_total_idempotent (hdr : GoStr) (now : Nat) (c : Claims)
    (body : Option GoStr) (led : Ledger)
    (hauth : authMiddleware hdr now = .proceed c) :
    (logoutRoute "POST" hdr body now led).1 = 200 ∧
    (logoutRoute "POST" hdr body now
        (logoutRoute "POST" hdr body now led).2).1 = 200 ∧
    (logoutRoute "POST" hdr body now
        (logoutRoute "POST" hdr body now led).2).2
      = (logoutRoute "POST" hdr body now led).2 := by
  have hroute : ∀ l, logoutRoute "POST" hdr body now l = logoutHandler body l := by
    intro l
    simp [logoutRoute, hauth]
  simp only [hroute]
  cases body with
  | none => simp [logoutHandler]
  | some s =>
    by_cases hs : s = []
    · simp [logoutHandler, hs]
    · simp [logoutHandler, hs, mapDelete_idem]

/-- C9 witness: with a valid access token in the header, logging out a
ledger-resident refresh token returns 200 and doing it again returns
200 without changing the ledger. -/
theorem logout_total_idempotent_witness :
    authMiddleware (tokStr (accessTokenOf "seller" 0)) 0
      = .proceed ⟨"seller", "access", 0, 900⟩ ∧
    ((logoutRoute "POST" (tokStr (accessTokenOf "seller" 0))
        (some (tokStr (refreshTokenOf "seller" 0))) 0
        [(tokStr (refreshTokenOf "seller" 0), "seller")]).1 = 200 ∧
     (logoutRoute "POST" (tokStr (accessTokenOf "seller" 0))
        (some (tokStr (refreshTokenOf "seller" 0))) 0
        (logoutRoute "POST" (tokStr (accessTokenOf "seller" 0))
          (some (tokStr (refreshTokenOf "seller" 0))) 0
          [(tokStr (refreshTokenOf "seller" 0), "seller")]).2).1 = 200 ∧
     (logoutRoute "POST" (tokStr (accessTokenOf "seller" 0))
        (some (tokStr (refreshTokenOf "seller" 0))) 0
        (logoutRoute "POST" (tokStr (accessTokenOf "seller" 0))
          (some (tokStr (refreshTokenOf "seller" 0))) 0
          [(tokStr (refreshTokenOf "seller" 0), "seller")]).2).2
       = (logoutRoute "POST" (tokStr (accessTokenOf "seller" 0))
          (some (tokStr (refreshTokenOf "seller" 0))) 0
          [(tokStr (refreshTokenOf "seller" 0), "seller")]).2) :=
  ⟨by decide,
   logout_total_idempotent (tokStr (accessTokenOf "seller" 0)) 0
     ⟨"seller", "access", 0, 900⟩
     (some (tokStr (refreshTokenOf "seller" 0)))
     [(tokStr (refreshTokenOf "seller" 0), "seller")] (by decide)⟩

/-- C10.  The bearer marker is optional at the auth guard: a valid
access token is accepted whether or not the header carries the
`Bearer ` marker (a serialised JWT never starts with it), the parsed
identity is attached, and rejection with 401 happens exactly when the
header is empty or the marker-stripped header value fails validation. -/
theorem bearer_optional :
    (∀ (t : Token) (c : Claims) (now : Nat),
        validateJWT (tokStr t) "access" now = some c →
        authMiddleware (tokStr t) now = .proceed c ∧
        authMiddleware (bearerLit ++ tokStr t) now = .proceed c) ∧
    (∀ (hd : GoStr) (now : Nat),
        (authMiddleware hd now).isReject = true ↔
          hd = [] ∨ validateJWT (trimPfx hd bearerLit) "access" now = none) := by
  constructor
  · intro t c now hv
    constructor
    · have hraw : trimPfx (tokStr t) bearerLit = tokStr t :=
        trimPfx_of_not_prefix _ _ (bearer_not_prefix_tok t)
      have hne : tokStr t ≠ ([] : GoStr) := by simp [tokStr]
      simp [authMiddleware, hne, hraw, hv]
    · have hne : bearerLit ++ tokStr t ≠ ([] : GoStr) := by simp [tokStr]
      simp [authMiddleware, hne, trimPfx_append, hv]
  · intro hd now
    by_cases hh : hd = []
    · subst hh
      simp [authMiddleware, AuthResult.isReject]
    · cases hv : validateJWT (trimPfx hd bearerLit) "access" now with
      | none => simp [authMiddleware, hh, hv, AuthResult.isReject]
      | some c => simp [authMiddleware, hh, hv, AuthResult.isReject]

/-- C10 witness: the access token for `seller` issued at second 7 is
accepted at second 7 both without and with the bearer marker. -/
theorem bearer_optional_witness :
    validateJWT (tokStr (accessTokenOf "seller" 7)) "access" 7
      = some ⟨"seller", "access", 7, 907⟩ ∧
    authMiddleware (tokStr (accessTokenOf "seller" 7)) 7
      = .proceed ⟨"seller", "access", 7, 907⟩ ∧
    authMiddleware (bearerLit ++ tokStr (accessTokenOf "seller" 7)) 7
      = .proceed ⟨"seller", "access", 7, 907⟩ :=
  ⟨by decide,
   (bearer_optional.1 (accessTokenOf "seller" 7) ⟨"seller", "access", 7, 907⟩ 7
     (by decide)).1,
   (bearer_optional.1 (accessTokenOf "seller" 7) ⟨"seller", "access", 7, 907⟩ 7
     (by decide)).2⟩

end ApexMotors
